import Mathlib

/-
Verification of the flag-submission and scoring core of a CTF training
platform (TypeScript / Next.js).  The definitions below are a shallow
embedding of:

  * src/lib/rate-limiter.ts       (checkRateLimit, RATE_LIMIT_CONFIGS, store)
  * src/lib/security.ts           (hashFlag, validateFlag, sanitizeInput,
                                   hashIpAddress, GENERIC_ERRORS)
  * src/lib/api-utils.ts          (authenticateRequest, applyRateLimit,
                                   response shapes)
  * src/app/api/challenges/submit/route.ts  (POST handler, award transaction)
  * src/app/api/challenges/route.ts         (GET handler)

Modelling conventions:
  * JavaScript timestamps (Date.now(), milliseconds) are Int.
  * The SHA-256 digest from the node crypto module is an external primitive
    and is a parameter (digest : String -> String) of every definition that
    uses it; claims that need collision-freedom take it as a hypothesis.
  * The in-process rate-limit Map is an association list, JS Map.set
    semantics (replace in place, else append).
  * Firestore documents are association lists keyed by document id; the
    runTransaction callback of the submit route is the pure state update
    awardTransaction; serverTimestamp() sentinels are the request time.
  * JSON response bodies are the inductives Resp / RespG, keeping exactly
    the fields the handlers write.
-/

/-! ## Rate limiter (src/lib/rate-limiter.ts) -/

/-- Embeds interface RateLimitConfig of src/types/index.ts. -/
structure RateLimitConfig where
  windowMs : Int
  maxRequests : Nat
deriving DecidableEq, Repr

/-- Embeds interface RateLimitEntry of src/types/index.ts. -/
structure RateLimitEntry where
  count : Nat
  firstRequest : Int
  lastRequest : Int
deriving DecidableEq, Repr

/-- Embeds interface RateLimitResult of src/lib/rate-limiter.ts. -/
structure RateLimitResult where
  allowed : Bool
  remaining : Int
  resetTime : Int
  retryAfter : Option Int := none
deriving DecidableEq, Repr

/-- The in-memory rateLimitStore Map, as an association list. -/
def RateStore := List (String × RateLimitEntry)

instance : DecidableEq RateStore := by unfold RateStore; infer_instance

/-- JS Map.get. -/
def storeGet : List (String × RateLimitEntry) → String → Option RateLimitEntry
  | [], _ => none
  | (k, v) :: rest, key => if k = key then some v else storeGet rest key

/-- JS Map.set: replaces the value in place when the key exists, appends
otherwise. -/
def storeSet : List (String × RateLimitEntry) → String → RateLimitEntry →
    List (String × RateLimitEntry)
  | [], key, v => [(key, v)]
  | (k, w) :: rest, key, v =>
      if k = key then (k, v) :: rest else (k, w) :: storeSet rest key v

/-- Math.ceil (a / b) on exact integers, for b > 0 (floor division of the
negation). -/
def mathCeilDiv (a b : Int) : Int := -((-a).fdiv b)

namespace RATE_LIMIT_CONFIGS

/-- Flag submission - strict limiting: 5 attempts per minute. -/
def flagSubmission : RateLimitConfig := { windowMs := 60 * 1000, maxRequests := 5 }

/-- Authentication - moderate limiting: 10 attempts per 15 minutes. -/
def authentication : RateLimitConfig := { windowMs := 15 * 60 * 1000, maxRequests := 10 }

/-- General API - lenient limiting: 60 requests per minute. -/
def general : RateLimitConfig := { windowMs := 60 * 1000, maxRequests := 60 }

/-- Password reset - very strict: 3 attempts per hour. -/
def passwordReset : RateLimitConfig := { windowMs := 60 * 60 * 1000, maxRequests := 3 }

end RATE_LIMIT_CONFIGS

/-- Embeds checkRateLimit of src/lib/rate-limiter.ts.  The mutable module
store is threaded explicitly: the result is paired with the new store. -/
def checkRateLimit (store : List (String × RateLimitEntry)) (identifier : String)
    (config : RateLimitConfig) (now : Int) :
    RateLimitResult × List (String × RateLimitEntry) :=
  let key := "rate:" ++ identifier
  match storeGet store key with
  | none =>
      ({ allowed := true
         remaining := (config.maxRequests : Int) - 1
         resetTime := now + config.windowMs },
       storeSet store key { count := 1, firstRequest := now, lastRequest := now })
  | some entry =>
      if now - entry.firstRequest > config.windowMs then
        ({ allowed := true
           remaining := (config.maxRequests : Int) - 1
           resetTime := now + config.windowMs },
         storeSet store key { count := 1, firstRequest := now, lastRequest := now })
      else if entry.count ≥ config.maxRequests then
        ({ allowed := false
           remaining := 0
           resetTime := entry.firstRequest + config.windowMs
           retryAfter := some (mathCeilDiv (entry.firstRequest + config.windowMs - now) 1000) },
         store)
      else
        ({ allowed := true
           remaining := (config.maxRequests : Int) - (entry.count + 1)
           resetTime := entry.firstRequest + config.windowMs },
         storeSet store key
           { count := entry.count + 1
             firstRequest := entry.firstRequest
             lastRequest := now })

/-! ## Security utilities (src/lib/security.ts) -/

/-- JS String.prototype.trim on the character list (whitespace at either
end; the inputs of interest are ASCII). -/
def trimChars (l : List Char) : List Char :=
  ((l.dropWhile Char.isWhitespace).reverse.dropWhile Char.isWhitespace).reverse

/-- JS String.prototype.trim. -/
def jsTrim (s : String) : String := String.mk (trimChars s.data)

/-- JS String.prototype.toLowerCase (ASCII case folding). -/
def jsToLower (s : String) : String := String.mk (s.data.map Char.toLower)

/-- The normalization applied by hashFlag: trim whitespace and lowercase. -/
def normalizeFlag (flag : String) : String := jsToLower (jsTrim flag)

/-- Embeds hashFlag of src/lib/security.ts.  The digest is the external
crypto primitive sha256 -> hex; the env-variable guard (throw when unset)
is the none branch. -/
def hashFlag (digest : String → String) (salt : String) (flag : String) :
    Option String :=
  if salt = "" then none
  else some (digest (salt ++ normalizeFlag flag))

/-- The numeric value of one hex digit, none for a non-hex char. -/
def hexDigitVal (c : Char) : Option Nat :=
  if '0' ≤ c ∧ c ≤ '9' then some (c.toNat - '0'.toNat)
  else if 'a' ≤ c ∧ c ≤ 'f' then some (c.toNat - 'a'.toNat + 10)
  else if 'A' ≤ c ∧ c ≤ 'F' then some (c.toNat - 'A'.toNat + 10)
  else none

/-- Node Buffer.from(s, "hex"): decode hex pairs left to right, stopping at
the first invalid pair; a trailing odd character is dropped. -/
def hexDecodeJs : List Char → List Nat
  | c1 :: c2 :: rest =>
      match hexDigitVal c1, hexDigitVal c2 with
      | some a, some b => (16 * a + b) :: hexDecodeJs rest
      | _, _ => []
  | _ => []

/-- Embeds validateFlag of src/lib/security.ts: hash the candidate, decode
both hex strings to byte buffers, report false on a length mismatch, else
timing-safe equality (modelled as equality).  none when hashFlag throws. -/
def validateFlag (digest : String → String) (salt : String)
    (submittedFlag : String) (storedHash : String) : Option Bool :=
  match hashFlag digest salt submittedFlag with
  | none => none
  | some submittedHash =>
      let submittedBuffer := hexDecodeJs submittedHash.data
      let storedBuffer := hexDecodeJs storedHash.data
      if submittedBuffer.length ≠ storedBuffer.length then some false
      else some (submittedBuffer == storedBuffer)

/-- JS regex \w (no unicode flag): ASCII letter, digit or underscore. -/
def isWordChar (c : Char) : Bool := c.isAlpha || c.isDigit || c = '_'

/-- Case-insensitive pattern consumption: if the input starts with the
(lowercase) pattern, return the rest of the input. -/
def dropPatCI : List Char → List Char → Option (List Char)
  | [], rest => some rest
  | _ :: _, [] => none
  | p :: ps, c :: cs => if c.toLower = p then dropPatCI ps cs else none

/-- A left-to-right non-overlapping scan deleting every match of a pattern
matcher f, exactly the semantics of String.prototype.replace with a /g
regex and empty replacement.  fuel is the input length; every successful
match consumes at least one character, so the fuel never runs out when
initialized to the input length. -/
def scanRemove (f : List Char → Option (List Char)) : Nat → List Char → List Char
  | 0, _ => []
  | _ + 1, [] => []
  | fuel + 1, c :: cs =>
      match f (c :: cs) with
      | some rest => scanRemove f fuel rest
      | none => c :: scanRemove f fuel cs

/-- Matcher for /javascript:/gi at the head of the input. -/
def jsProtoPat (input : List Char) : Option (List Char) :=
  match input with
  | [] => none
  | c :: cs => if c.toLower = 'j' then dropPatCI "avascript:".data cs else none

/-- Matcher for /on\w+=/gi at the head of the input: "on" (case folded),
a maximal nonempty run of word characters, then '=' (greedy \w+ cannot
backtrack into a match because '=' is not a word character). -/
def onHandlerPat (input : List Char) : Option (List Char) :=
  match input with
  | c1 :: c2 :: rest =>
      if c1.toLower = 'o' ∧ c2.toLower = 'n' then
        match rest.takeWhile isWordChar, rest.dropWhile isWordChar with
        | [], _ => none
        | _ :: _, '=' :: r2 => some r2
        | _ :: _, _ => none
      else none
  | _ => none

/-- Embeds sanitizeInput of src/lib/security.ts: trim, delete angle
brackets, delete every /javascript:/gi match, delete every /on\w+=/gi
match, truncate to 10000 characters. -/
def sanitizeInput (input : String) : String :=
  let t := trimChars input.data
  let noAngle := t.filter (fun c => ¬(c = '<' ∨ c = '>'))
  let noJs := scanRemove jsProtoPat noAngle.length noAngle
  let noHandlers := scanRemove onHandlerPat noJs.length noJs
  String.mk (noHandlers.take 10000)

/-- Embeds hashIpAddress of src/lib/security.ts: salted digest of the IP,
first 16 hex chars; an unset salt falls back to "default-salt". -/
def hashIpAddress (digest : String → String) (salt : String) (ip : String) : String :=
  ((digest ((if salt = "" then "default-salt" else salt) ++ ip)).take 16)

namespace GENERIC_ERRORS

def AUTH_FAILED : String := "Authentication failed. Please check your credentials."

def INVALID_CREDENTIALS : String := "Invalid email or password."

def EMAIL_NOT_VERIFIED : String := "Please verify your email address before continuing."

def RATE_LIMITED : String := "Too many requests. Please try again later."

def SERVER_ERROR : String := "An unexpected error occurred. Please try again."

def UNAUTHORIZED : String := "You are not authorized to perform this action."

def NOT_FOUND : String := "The requested resource was not found."

def VALIDATION_FAILED : String := "Validation failed. Please check your input."

def FLAG_INCORRECT : String := "Incorrect flag. Keep trying!"

def FLAG_CORRECT : String := "Correct! Challenge solved."

def ALREADY_SOLVED : String := "You have already solved this challenge."

end GENERIC_ERRORS

/-! ## Data model (src/types/index.ts, Firestore documents) -/

/-- The fields of a decoded Firebase ID token that the submit route uses
(DecodedIdToken). -/
structure TokenInfo where
  uid : String
  email : Option String := none
  email_verified : Bool := false
  name : Option String := none
  picture : Option String := none
deriving DecidableEq, Repr

/-- The scoring-relevant fields of a users document (interface User). -/
structure UserRec where
  uid : String
  email : String
  displayName : String
  photoURL : Option String := none
  emailVerified : Bool
  score : Int
  solvedChallenges : List String
  rank : Option Int := none
  isAdmin : Bool := false
  isBanned : Bool := false
deriving DecidableEq, Repr

/-- A challenge attachment (interface ChallengeAttachment); size omitted as
it is numeric and never compared. -/
structure AttachmentRec where
  name : String
  url : String
  type : String
deriving DecidableEq, Repr

/-- A challenges document (interface Challenge); timestamps omitted. -/
structure ChallengeRec where
  title : String
  description : String
  category : String
  difficulty : String
  points : Int
  flagHash : String
  hints : List String
  attachments : List AttachmentRec
  solveCount : Int
  isActive : Bool
  author : String
deriving DecidableEq, Repr

/-- An audit submissions document as written by the submit route. -/
structure SubmissionRec where
  challengeId : String
  userId : String
  submittedAt : Int
  status : String
  ipAddress : String
  userAgent : String
deriving DecidableEq, Repr

/-- The three Firestore collections the core touches. -/
structure DB where
  users : List (String × UserRec)
  challenges : List (String × ChallengeRec)
  submissions : List SubmissionRec
deriving DecidableEq, Repr

/-- Firestore document lookup in a collection (association list). -/
def alGet {α : Type} : List (String × α) → String → Option α
  | [], _ => none
  | (k, v) :: rest, key => if k = key then some v else alGet rest key

/-- Firestore document set: replace in place when present, else append. -/
def alSet {α : Type} : List (String × α) → String → α → List (String × α)
  | [], key, v => [(key, v)]
  | (k, w) :: rest, key, v =>
      if k = key then (k, v) :: rest else (k, w) :: alSet rest key v

/-- Firestore transaction.update of an existing document. -/
def alModify {α : Type} : List (String × α) → String → (α → α) → List (String × α)
  | [], _, _ => []
  | (k, v) :: rest, key, f =>
      if k = key then (k, f v) :: rest else (k, v) :: alModify rest key f

/-- FieldValue.arrayUnion with a single element: append unless present. -/
def arrayUnionJs (l : List String) (x : String) : List String :=
  if x ∈ l then l else l ++ [x]

/-- JS a || b for an optional string, where the empty string is falsy. -/
def strOr (a : Option String) (b : String) : String :=
  match a with
  | some s => if s = "" then b else s
  | none => b

/-- JS user.picture || null (empty string collapses to null). -/
def strOrNull (a : Option String) : Option String :=
  match a with
  | some s => if s = "" then none else some s
  | none => none

/-- JS user.email?.split("@")[0] -/
def emailLocalPart (e : String) : String := ((e.splitOn "@").headD "")

/-- The minimal user document the award transaction creates when the
identity has no users document yet (first-touch creation). -/
def freshUser (t : TokenInfo) : UserRec :=
  { uid := t.uid
    email := strOr t.email ""
    displayName := strOr t.name (strOr (t.email.map emailLocalPart) "Anonymous")
    photoURL := strOrNull t.picture
    emailVerified := t.email_verified
    score := 0
    solvedChallenges := []
    rank := none
    isAdmin := false
    isBanned := false }

/-! ## Score ledger transaction
(the runTransaction callback of src/app/api/challenges/submit/route.ts) -/

/-- Embeds the runTransaction callback: re-read the user inside the
transaction, create the document when absent, no-op when the challenge is
already in the solved set, else add points, union the challenge id into
the solved set and increment the solve counter; the transaction commits
as one atomic unit, modelled as one pure state update. -/
def awardTransaction (t : TokenInfo) (challengeId : String)
    (challenge : ChallengeRec) (db : DB) : DB :=
  match alGet db.users t.uid with
  | none =>
      let created := freshUser t
      let db1 : DB := { db with users := alSet db.users t.uid created }
      let newScore := created.score + challenge.points
      let db2 : DB :=
        { db1 with users := alModify db1.users t.uid (fun u =>
            { u with score := newScore
                     solvedChallenges := arrayUnionJs u.solvedChallenges challengeId }) }
      { db2 with challenges := alModify db2.challenges challengeId (fun c =>
          { c with solveCount := c.solveCount + 1 }) }
  | some u =>
      if challengeId ∈ u.solvedChallenges then db
      else
        let newScore := u.score + challenge.points
        let db2 : DB :=
          { db with users := alModify db.users t.uid (fun w =>
              { w with score := newScore
                       solvedChallenges := arrayUnionJs w.solvedChallenges challengeId }) }
        { db2 with challenges := alModify db2.challenges challengeId (fun c =>
            { c with solveCount := c.solveCount + 1 }) }

/-! ## API responses and handlers -/

/-- An ApiResponse body: failure carries the HTTP status and error string,
success carries the data object written by the submit route plus the
optional top-level message of successResponse. -/
inductive Resp where
  | failure (status : Nat) (error : String)
  | success (correct : Bool) (message : String)
      (pointsAwarded : Option Int) (newScore : Option Int) (topMessage : Option String)
deriving DecidableEq, Repr

/-- Every string occurring in a response body. -/
def Resp.bodyStrings : Resp → List String
  | .failure _ e => [e]
  | .success _ m _ _ top => m :: top.toList

/-- Outcome of authenticateRequest of src/lib/api-utils.ts. -/
inductive AuthOutcome where
  | failure (status : Nat) (error : String)
  | ok (t : TokenInfo) (userData : Option UserRec)
deriving DecidableEq, Repr

/-- Embeds authenticateRequest (with the default requireEmailVerified =
true): token verification, email-verification gate, user read, ban gate.
A missing, malformed, expired, revoked or otherwise invalid bearer token
is the none case (verifyAuthToken returns null for all of them). -/
def authenticateRequest (token : Option TokenInfo)
    (users : List (String × UserRec)) : AuthOutcome :=
  match token with
  | none => .failure 401 GENERIC_ERRORS.UNAUTHORIZED
  | some t =>
      if t.email_verified = false then .failure 403 GENERIC_ERRORS.EMAIL_NOT_VERIFIED
      else
        let userData := alGet users t.uid
        if (match userData with | some u => u.isBanned | none => false) then
          .failure 403 GENERIC_ERRORS.UNAUTHORIZED
        else .ok t userData

/-- The parsed JSON body of a submission request; a field is none when it
is absent or not a string (the typeof guard). -/
structure SubmitBody where
  challengeId : Option String
  flag : Option String
deriving DecidableEq, Repr

/-- An inbound request to the submit endpoint: token is the result of
verifying the bearer header, body the result of JSON parsing (none when
parsing threw). -/
structure SubmitReq where
  token : Option TokenInfo
  body : Option SubmitBody
  ip : String
  userAgent : Option String
deriving DecidableEq, Repr

/-- The solved set the route reads from the pre-transaction user document
(userData?.solvedChallenges, [] when the document is absent). -/
def solvedOf (userData : Option UserRec) : List String :=
  match userData with
  | some u => u.solvedChallenges
  | none => []

/-- The part of the submit POST handler after authentication and rate
limiting: body validation, flag sanitation, duplicate-solve check,
challenge fetch, flag match, audit record, award transaction and response
(src/app/api/challenges/submit/route.ts lines 67-225). -/
def submitCore (digest : String → String) (salt : String) (t : TokenInfo)
    (userData : Option UserRec) (body : Option SubmitBody)
    (userAgent : Option String) (ipHash : String) (db : DB) (now : Int) :
    Resp × DB :=
  match body with
  | none => (.failure 400 "Invalid request body", db)
  | some b =>
      match b.challengeId with
      | none => (.failure 400 GENERIC_ERRORS.VALIDATION_FAILED, db)
      | some challengeId =>
          if challengeId = "" then (.failure 400 GENERIC_ERRORS.VALIDATION_FAILED, db)
          else match b.flag with
          | none => (.failure 400 GENERIC_ERRORS.VALIDATION_FAILED, db)
          | some flag =>
              if flag = "" then (.failure 400 GENERIC_ERRORS.VALIDATION_FAILED, db)
              else
                let sanitizedFlag := sanitizeInput flag
                if sanitizedFlag.length = 0 ∨ 256 < sanitizedFlag.length then
                  (.failure 400 GENERIC_ERRORS.VALIDATION_FAILED, db)
                else if challengeId ∈ solvedOf userData then
                  (.success false GENERIC_ERRORS.ALREADY_SOLVED none none
                     (some GENERIC_ERRORS.ALREADY_SOLVED), db)
                else match alGet db.challenges challengeId with
                | none => (.failure 404 GENERIC_ERRORS.NOT_FOUND, db)
                | some challenge =>
                    if challenge.isActive = false then
                      (.failure 404 GENERIC_ERRORS.NOT_FOUND, db)
                    else match validateFlag digest salt sanitizedFlag challenge.flagHash with
                    | none => (.failure 500 GENERIC_ERRORS.SERVER_ERROR, db)
                    | some isCorrect =>
                        let db1 : DB :=
                          { db with submissions := db.submissions ++
                              [{ challengeId := challengeId
                                 userId := t.uid
                                 submittedAt := now
                                 status := if isCorrect then "correct" else "incorrect"
                                 ipAddress := ipHash
                                 userAgent := (strOr userAgent "unknown").take 256 }] }
                        if isCorrect then
                          let db2 := awardTransaction t challengeId challenge db1
                          let newScore :=
                            match alGet db2.users t.uid with
                            | some u => u.score
                            | none => 0
                          (.success true GENERIC_ERRORS.FLAG_CORRECT
                             (some challenge.points) (some newScore) none, db2)
                        else
                          (.success false GENERIC_ERRORS.FLAG_INCORRECT none none none, db1)

/-- Embeds POST of src/app/api/challenges/submit/route.ts: authentication
first, then the strict flag-submission rate limit keyed by
hashedIp:userId, then submitCore. -/
def submitPOST (digest : String → String) (salt : String) (req : SubmitReq)
    (db : DB) (store : List (String × RateLimitEntry)) (now : Int) :
    Resp × DB × List (String × RateLimitEntry) :=
  let ipHash := hashIpAddress digest salt req.ip
  match authenticateRequest req.token db.users with
  | .failure status e => (.failure status e, db, store)
  | .ok t userData =>
      let rateLimitKey := ipHash ++ ":" ++ t.uid
      let rl := checkRateLimit store ("flagSubmission:" ++ rateLimitKey)
        RATE_LIMIT_CONFIGS.flagSubmission now
      if rl.1.allowed = false then
        (.failure 429 GENERIC_ERRORS.RATE_LIMITED, db, rl.2)
      else
        let core := submitCore digest salt t userData req.body req.userAgent ipHash db now
        (core.1, core.2, rl.2)

/-- The public challenge shape returned by GET /api/challenges
(interface ChallengePublic; the flag hash is excluded by construction). -/
structure PublicChallenge where
  id : String
  title : String
  description : String
  category : String
  difficulty : String
  points : Int
  hints : List String
  attachments : List AttachmentRec
  solveCount : Int
  isSolved : Bool
deriving DecidableEq, Repr

/-- The transformation of one challenge document to its public shape. -/
def toPublic (id : String) (c : ChallengeRec) (solved : List String) :
    PublicChallenge :=
  { id := id
    title := c.title
    description := c.description
    category := c.category
    difficulty := c.difficulty
    points := c.points
    hints := c.hints
    attachments := c.attachments
    solveCount := c.solveCount
    isSolved := id ∈ solved }

/-- Response of the challenge-listing endpoint. -/
inductive RespG where
  | failure (status : Nat) (error : String)
  | success (data : List PublicChallenge)
deriving DecidableEq, Repr

/-- Every string occurring in the public shape of one challenge. -/
def PublicChallenge.strings (pc : PublicChallenge) : List String :=
  pc.id :: pc.title :: pc.description :: pc.category :: pc.difficulty ::
    (pc.hints ++ pc.attachments.flatMap (fun a => [a.name, a.url, a.type]))

/-- Every string occurring in a listing response body. -/
def RespG.bodyStrings : RespG → List String
  | .failure _ e => [e]
  | .success data => data.flatMap PublicChallenge.strings

/-- A request to the challenge-listing endpoint. -/
structure ListReq where
  token : Option TokenInfo
  ip : String
deriving DecidableEq, Repr

/-- Embeds GET of src/app/api/challenges/route.ts: general rate limit
keyed by the hashed IP first, then authentication, then the active
challenges mapped to their public shape (the orderBy clauses affect order
only and are not modelled). -/
def challengesGET (digest : String → String) (salt : String) (req : ListReq)
    (db : DB) (store : List (String × RateLimitEntry)) (now : Int) :
    RespG × List (String × RateLimitEntry) :=
  let ipHash := hashIpAddress digest salt req.ip
  let rl := checkRateLimit store ("general:" ++ ipHash)
    RATE_LIMIT_CONFIGS.general now
  if rl.1.allowed = false then (.failure 429 GENERIC_ERRORS.RATE_LIMITED, rl.2)
  else match authenticateRequest req.token db.users with
  | .failure status e => (.failure status e, rl.2)
  | .ok _ userData =>
      let solvedChallenges := solvedOf userData
      (.success ((db.challenges.filter (fun kc => kc.2.isActive)).map
        (fun kc => toPublic kc.1 kc.2 solvedChallenges)), rl.2)

/-! ## Example data used by witness theorems -/

/-- One hex digit (lowercase). -/
def hexDigitChar (n : Nat) : Char :=
  if n < 10 then Char.ofNat (48 + n) else Char.ofNat (87 + (n - 10))

/-- Lowercase hex encoding of a byte list. -/
def bytesToHex (l : List Nat) : String :=
  String.mk (l.flatMap (fun b => [hexDigitChar (b / 16 % 16), hexDigitChar (b % 16)]))

/-- A concrete stand-in for the external sha256 hex digest, used only to
instantiate witness theorems (hex encoding of the input bytes). -/
def demoDigest (s : String) : String :=
  bytesToHex (s.data.map (fun c => c.toNat % 256))

/-- A verified example identity. -/
def exToken : TokenInfo :=
  { uid := "u1"
    email := some "alice@example.org"
    email_verified := true }

/-- An example user document: score 500, one solved challenge worth 500. -/
def exUser : UserRec :=
  { uid := "u1"
    email := "alice@example.org"
    displayName := "alice"
    emailVerified := true
    score := 500
    solvedChallenges := ["c0"] }

/-- An example challenge document worth 250 points, fingerprint created
from the secret "a<b>c" with salt "s". -/
def exChallenge : ChallengeRec :=
  { title := "demo"
    description := "demo challenge"
    category := "web"
    difficulty := "easy"
    points := 250
    flagHash := demoDigest ("s" ++ "a<b>c")
    hints := []
    attachments := []
    solveCount := 3
    isActive := true
    author := "bob" }

/-- An example solved challenge document worth 500 points (the points
behind exUser's score). -/
def exChallenge0 : ChallengeRec :=
  { title := "zero"
    description := "first challenge"
    category := "misc"
    difficulty := "easy"
    points := 500
    flagHash := demoDigest ("s" ++ "other")
    hints := []
    attachments := []
    solveCount := 9
    isActive := false
    author := "bob" }

/-- The example database for witnesses. -/
def exDB : DB :=
  { users := [("u1", exUser)]
    challenges := [("c0", exChallenge0), ("c1", exChallenge)]
    submissions := [] }

/-- A verified example identity with no user document. -/
def exToken2 : TokenInfo :=
  { uid := "u2"
    email := some "bob@example.org"
    email_verified := true }

/-- An example user document with nothing solved yet. -/
def exUserEmpty : UserRec :=
  { uid := "u1"
    email := "alice@example.org"
    displayName := "alice"
    emailVerified := true
    score := 0
    solvedChallenges := [] }

/-- A request carrying no valid bearer credential, aimed at a challenge
with a full rate window. -/
def cexReqNoToken : SubmitReq :=
  { token := none
    body := some ⟨some "c1", some "x"⟩
    ip := "9.9.9.9"
    userAgent := none }

/-- The limiter identifier the submit route would use for cexReqNoToken if
the credential subject were u1. -/
def cexKey : String :=
  "flagSubmission:" ++ (hashIpAddress demoDigest "s" "9.9.9.9" ++ ":" ++ "u1")

/-- A store whose window for cexKey is live and at the maximum. -/
def cexStoreFull : List (String × RateLimitEntry) :=
  [("rate:" ++ cexKey, { count := 5, firstRequest := 0, lastRequest := 0 })]

/-- A request with a valid verified credential for u1 from the same
origin as cexStoreFull's exhausted window. -/
def c2ReqValid : SubmitReq :=
  { token := some exToken
    body := some ⟨some "c1", some "x"⟩
    ip := "9.9.9.9"
    userAgent := none }

/-- A request whose challenge id is the empty string (malformed). -/
def c4ReqMalformed : SubmitReq :=
  { token := some exToken
    body := some ⟨some "", some "x"⟩
    ip := "1.2.3.4"
    userAgent := none }

/-- A request naming a challenge id absent from the store. -/
def c4ReqAbsent : SubmitReq :=
  { token := some exToken
    body := some ⟨some "nope", some "x"⟩
    ip := "1.2.3.4"
    userAgent := none }

/-- A request from exToken2 naming the inactive challenge c0. -/
def c4ReqInactive : SubmitReq :=
  { token := some exToken2
    body := some ⟨some "c0", some "x"⟩
    ip := "1.2.3.4"
    userAgent := none }

/-- A challenge whose fingerprint is created from the exact secret
"a<b>c", which sanitizeInput rewrites to "abc". -/
def c9Challenge (digest : String → String) (salt : String) : ChallengeRec :=
  { title := "angle"
    description := "angle-bracket secret"
    category := "misc"
    difficulty := "easy"
    points := 100
    flagHash := digest (salt ++ "a<b>c")
    hints := []
    attachments := []
    solveCount := 0
    isActive := true
    author := "bob" }

/-- Database holding only c9Challenge and a user with nothing solved. -/
def c9DB (digest : String → String) (salt : String) : DB :=
  { users := [("u1", exUserEmpty)]
    challenges := [("c1", c9Challenge digest salt)]
    submissions := [] }

/-- The submission of the exact secret the fingerprint was created from. -/
def c9Req : SubmitReq :=
  { token := some exToken
    body := some ⟨some "c1", some "a<b>c"⟩
    ip := "1.2.3.4"
    userAgent := none }

/-- Every constant string a submit POST response body can carry. -/
def postBodyConstants : List String :=
  [GENERIC_ERRORS.UNAUTHORIZED, GENERIC_ERRORS.EMAIL_NOT_VERIFIED,
   GENERIC_ERRORS.RATE_LIMITED, "Invalid request body",
   GENERIC_ERRORS.VALIDATION_FAILED, GENERIC_ERRORS.ALREADY_SOLVED,
   GENERIC_ERRORS.NOT_FOUND, GENERIC_ERRORS.SERVER_ERROR,
   GENERIC_ERRORS.FLAG_CORRECT, GENERIC_ERRORS.FLAG_INCORRECT]

/-- Every string stored in one challenge document that the listing
endpoint may expose (its public fields; never the flag hash). -/
def challengeDocStrings (kc : String × ChallengeRec) : List String :=
  kc.1 :: kc.2.title :: kc.2.description :: kc.2.category :: kc.2.difficulty ::
    (kc.2.hints ++ kc.2.attachments.flatMap (fun a => [a.name, a.url, a.type]))

/-- The pool of strings any modelled response body draws from. -/
def leakPool (db : DB) : List String :=
  postBodyConstants ++ db.challenges.flatMap challengeDocStrings

/-- The point value recorded in the challenges collection for a challenge
id, 0 when absent. -/
def challengePoints (chs : List (String × ChallengeRec)) (cid : String) : Int :=
  match alGet chs cid with
  | some c => c.points
  | none => 0

/-- The spec invariant: every user document's cumulative score is exactly
the sum of the point values of the challenges in its solved set, and the
solved set has no duplicates. -/
def scoreInv (db : DB) : Prop :=
  ∀ uid u, alGet db.users uid = some u →
    u.score = (u.solvedChallenges.map (challengePoints db.challenges)).sum ∧
    u.solvedChallenges.Nodup

/-- The rate-store invariant: no stored window count exceeds the
configured maximum. -/
def storeCountInv (cfg : RateLimitConfig) (store : List (String × RateLimitEntry)) : Prop :=
  ∀ k e, storeGet store k = some e → e.count ≤ cfg.maxRequests

/-! ## Association list lemmas -/

theorem alGet_alSet {α : Type} (l : List (String × α)) (k k2 : String) (v : α) :
    alGet (alSet l k v) k2 = if k = k2 then some v else alGet l k2 := by
  induction l with
  | nil => simp [alGet, alSet]
  | cons h t ih =>
      obtain ⟨k1, v1⟩ := h
      by_cases h1 : k1 = k
      · subst h1
        by_cases h2 : k1 = k2 <;> simp [alSet, alGet, h2, ih]
      · simp only [alSet, if_neg h1, alGet]
        by_cases h2 : k1 = k2
        · subst h2
          have hne : ¬ k = k1 := fun hh => h1 hh.symm
          simp [hne, alGet]
        · simp [h2, ih]

theorem alGet_alModify {α : Type} (l : List (String × α)) (k k2 : String)
    (f : α → α) :
    alGet (alModify l k f) k2 =
      if k = k2 then (alGet l k2).map f else alGet l k2 := by
  induction l with
  | nil => simp [alGet, alModify]
  | cons h t ih =>
      obtain ⟨k1, v1⟩ := h
      by_cases h1 : k1 = k
      · subst h1
        by_cases h2 : k1 = k2 <;> simp [alModify, alGet, h2, ih]
      · simp only [alModify, if_neg h1, alGet]
        by_cases h2 : k1 = k2
        · subst h2
          have hne : ¬ k = k1 := fun hh => h1 hh.symm
          simp [hne, alGet]
        · simp [h2, ih]

theorem storeGet_storeSet (l : List (String × RateLimitEntry)) (k k2 : String)
    (v : RateLimitEntry) :
    storeGet (storeSet l k v) k2 = if k = k2 then some v else storeGet l k2 := by
  induction l with
  | nil => simp [storeGet, storeSet]
  | cons h t ih =>
      obtain ⟨k1, v1⟩ := h
      by_cases h1 : k1 = k
      · subst h1
        by_cases h2 : k1 = k2 <;> simp [storeSet, storeGet, h2, ih]
      · simp only [storeSet, if_neg h1, storeGet]
        by_cases h2 : k1 = k2
        · subst h2
          have hne : ¬ k = k1 := fun hh => h1 hh.symm
          simp [hne, storeGet]
        · simp [h2, ih]

/-! ## Rate limiter stepping lemmas -/

theorem checkRateLimit_absent (store : List (String × RateLimitEntry))
    (id : String) (cfg : RateLimitConfig) (now : Int)
    (hget : storeGet store ("rate:" ++ id) = none) :
    checkRateLimit store id cfg now =
      ({ allowed := true
         remaining := (cfg.maxRequests : Int) - 1
         resetTime := now + cfg.windowMs },
       storeSet store ("rate:" ++ id)
         { count := 1, firstRequest := now, lastRequest := now }) := by
  simp only [checkRateLimit]
  rw [hget]

theorem checkRateLimit_expired (store : List (String × RateLimitEntry))
    (id : String) (cfg : RateLimitConfig) (now : Int) (e : RateLimitEntry)
    (hget : storeGet store ("rate:" ++ id) = some e)
    (hexp : now - e.firstRequest > cfg.windowMs) :
    checkRateLimit store id cfg now =
      ({ allowed := true
         remaining := (cfg.maxRequests : Int) - 1
         resetTime := now + cfg.windowMs },
       storeSet store ("rate:" ++ id)
         { count := 1, firstRequest := now, lastRequest := now }) := by
  simp only [checkRateLimit]
  rw [hget]
  simp [hexp]

theorem checkRateLimit_live_increment (store : List (String × RateLimitEntry))
    (id : String) (cfg : RateLimitConfig) (now : Int) (e : RateLimitEntry)
    (hget : storeGet store ("rate:" ++ id) = some e)
    (hlive : now - e.firstRequest ≤ cfg.windowMs)
    (hcount : e.count < cfg.maxRequests) :
    checkRateLimit store id cfg now =
      ({ allowed := true
         remaining := (cfg.maxRequests : Int) - (e.count + 1)
         resetTime := e.firstRequest + cfg.windowMs },
       storeSet store ("rate:" ++ id)
         { count := e.count + 1, firstRequest := e.firstRequest, lastRequest := now }) := by
  simp only [checkRateLimit]
  rw [hget]
  simp [not_lt.mpr hlive, not_le.mpr hcount]

theorem checkRateLimit_full (store : List (String × RateLimitEntry))
    (id : String) (cfg : RateLimitConfig) (now : Int) (e : RateLimitEntry)
    (hget : storeGet store ("rate:" ++ id) = some e)
    (hlive : now - e.firstRequest ≤ cfg.windowMs)
    (hcount : e.count ≥ cfg.maxRequests) :
    checkRateLimit store id cfg now =
      ({ allowed := false
         remaining := 0
         resetTime := e.firstRequest + cfg.windowMs
         retryAfter := some (mathCeilDiv (e.firstRequest + cfg.windowMs - now) 1000) },
       store) := by
  simp only [checkRateLimit]
  rw [hget]
  simp [not_lt.mpr hlive, hcount]

/-! ## Award transaction lemmas -/

theorem awardTransaction_noop (t : TokenInfo) (cid : String) (ch : ChallengeRec)
    (db : DB) (u : UserRec) (hget : alGet db.users t.uid = some u)
    (hmem : cid ∈ u.solvedChallenges) :
    awardTransaction t cid ch db = db := by
  unfold awardTransaction
  rw [hget]
  simp [hmem]

theorem awardTransaction_users_existing (t : TokenInfo) (cid : String)
    (ch : ChallengeRec) (db : DB) (u : UserRec)
    (hget : alGet db.users t.uid = some u) (hmem : cid ∉ u.solvedChallenges) :
    alGet (awardTransaction t cid ch db).users t.uid =
      some { u with score := u.score + ch.points
                    solvedChallenges := u.solvedChallenges ++ [cid] } := by
  unfold awardTransaction
  rw [hget]
  simp only [if_neg hmem]
  rw [alGet_alModify, if_pos rfl, hget]
  simp [arrayUnionJs, hmem]

theorem awardTransaction_users_absent (t : TokenInfo) (cid : String)
    (ch : ChallengeRec) (db : DB) (hget : alGet db.users t.uid = none) :
    alGet (awardTransaction t cid ch db).users t.uid =
      some { freshUser t with score := ch.points, solvedChallenges := [cid] } := by
  unfold awardTransaction
  rw [hget]
  simp only
  rw [alGet_alModify, if_pos rfl, alGet_alSet, if_pos rfl]
  simp [freshUser, arrayUnionJs]

theorem awardTransaction_counter (t : TokenInfo) (cid : String)
    (ch : ChallengeRec) (db : DB) (c0 : ChallengeRec)
    (hch : alGet db.challenges cid = some c0)
    (hnotsolved : ∀ u, alGet db.users t.uid = some u → cid ∉ u.solvedChallenges) :
    alGet (awardTransaction t cid ch db).challenges cid =
      some { c0 with solveCount := c0.solveCount + 1 } := by
  unfold awardTransaction
  cases hu : alGet db.users t.uid with
  | none =>
      dsimp only
      rw [alGet_alModify, if_pos rfl, hch]
      rfl
  | some u =>
      dsimp only
      rw [if_neg (hnotsolved u hu)]
      dsimp only
      rw [alGet_alModify, if_pos rfl, hch]
      rfl

theorem awardTransaction_users_other (t : TokenInfo) (cid : String)
    (ch : ChallengeRec) (db : DB) (uid2 : String) (hne : uid2 ≠ t.uid) :
    alGet (awardTransaction t cid ch db).users uid2 = alGet db.users uid2 := by
  unfold awardTransaction
  cases hu : alGet db.users t.uid with
  | none =>
      dsimp only
      rw [alGet_alModify, if_neg (fun hh => hne hh.symm),
        alGet_alSet, if_neg (fun hh => hne hh.symm)]
  | some u =>
      by_cases hmem : cid ∈ u.solvedChallenges
      · simp [hmem]
      · dsimp only
        rw [if_neg hmem]
        dsimp only
        rw [alGet_alModify, if_neg (fun hh => hne hh.symm)]

theorem awardTransaction_challenges_shape (t : TokenInfo) (cid : String)
    (ch : ChallengeRec) (db : DB)
    (hnotsolved : ∀ u, alGet db.users t.uid = some u → cid ∉ u.solvedChallenges) :
    (awardTransaction t cid ch db).challenges =
      alModify db.challenges cid (fun c => { c with solveCount := c.solveCount + 1 }) := by
  unfold awardTransaction
  cases hu : alGet db.users t.uid with
  | none => dsimp only
  | some u =>
      dsimp only
      rw [if_neg (hnotsolved u hu)]

/-- The award transaction is idempotent: a second run for the same
(identity, challenge) pair is a no-op. -/
theorem awardTransaction_idem (t : TokenInfo) (cid : String) (ch : ChallengeRec)
    (db : DB) :
    awardTransaction t cid ch (awardTransaction t cid ch db) =
      awardTransaction t cid ch db := by
  cases hu : alGet db.users t.uid with
  | none =>
      apply awardTransaction_noop (u := { freshUser t with score := ch.points, solvedChallenges := [cid] })
      · exact awardTransaction_users_absent t cid ch db hu
      · simp
  | some u =>
      by_cases hmem : cid ∈ u.solvedChallenges
      · rw [awardTransaction_noop t cid ch db u hu hmem]
        exact awardTransaction_noop t cid ch db u hu hmem
      · apply awardTransaction_noop
          (u := { u with score := u.score + ch.points
                         solvedChallenges := u.solvedChallenges ++ [cid] })
        · exact awardTransaction_users_existing t cid ch db u hu hmem
        · simp

/-! ## Score-sum invariant -/

theorem challengePoints_inc (chs : List (String × ChallengeRec)) (cid cid2 : String) :
    challengePoints
      (alModify chs cid (fun c => { c with solveCount := c.solveCount + 1 })) cid2 =
    challengePoints chs cid2 := by
  unfold challengePoints
  rw [alGet_alModify]
  by_cases h : cid = cid2
  · subst h
    cases alGet chs cid <;> simp
  · simp [h]

/-! ## Claim theorems: rate limiter -/

/-- C5: with the flag-submission policy (maxRequests = 5, windowMs =
60000) and a fixed identifier, six calls whose times all lie within one
window of the first have the first five allowed (the count stepping from
1 to 5) and the sixth rejected with the store unchanged; a call made more
than windowMs after the window's first request is allowed again with a
fresh window of count 1 and remaining = maxRequests - 1. -/
theorem rate_window_five_then_reject (id : String) (t1 t2 t3 t4 t5 t6 t7 : Int)
    (h2 : t2 - t1 ≤ 60000) (h3 : t3 - t1 ≤ 60000) (h4 : t4 - t1 ≤ 60000)
    (h5 : t5 - t1 ≤ 60000) (h6 : t6 - t1 ≤ 60000) (h7 : t7 - t1 > 60000) :
    checkRateLimit [] id RATE_LIMIT_CONFIGS.flagSubmission t1 =
      ({ allowed := true, remaining := 4, resetTime := t1 + 60000 },
       [("rate:" ++ id, { count := 1, firstRequest := t1, lastRequest := t1 })]) ∧
    checkRateLimit [("rate:" ++ id, { count := 1, firstRequest := t1, lastRequest := t1 })]
        id RATE_LIMIT_CONFIGS.flagSubmission t2 =
      ({ allowed := true, remaining := 3, resetTime := t1 + 60000 },
       [("rate:" ++ id, { count := 2, firstRequest := t1, lastRequest := t2 })]) ∧
    checkRateLimit [("rate:" ++ id, { count := 2, firstRequest := t1, lastRequest := t2 })]
        id RATE_LIMIT_CONFIGS.flagSubmission t3 =
      ({ allowed := true, remaining := 2, resetTime := t1 + 60000 },
       [("rate:" ++ id, { count := 3, firstRequest := t1, lastRequest := t3 })]) ∧
    checkRateLimit [("rate:" ++ id, { count := 3, firstRequest := t1, lastRequest := t3 })]
        id RATE_LIMIT_CONFIGS.flagSubmission t4 =
      ({ allowed := true, remaining := 1, resetTime := t1 + 60000 },
       [("rate:" ++ id, { count := 4, firstRequest := t1, lastRequest := t4 })]) ∧
    checkRateLimit [("rate:" ++ id, { count := 4, firstRequest := t1, lastRequest := t4 })]
        id RATE_LIMIT_CONFIGS.flagSubmission t5 =
      ({ allowed := true, remaining := 0, resetTime := t1 + 60000 },
       [("rate:" ++ id, { count := 5, firstRequest := t1, lastRequest := t5 })]) ∧
    checkRateLimit [("rate:" ++ id, { count := 5, firstRequest := t1, lastRequest := t5 })]
        id RATE_LIMIT_CONFIGS.flagSubmission t6 =
      ({ allowed := false, remaining := 0, resetTime := t1 + 60000
         retryAfter := some (mathCeilDiv (t1 + 60000 - t6) 1000) },
       [("rate:" ++ id, { count := 5, firstRequest := t1, lastRequest := t5 })]) ∧
    checkRateLimit [("rate:" ++ id, { count := 5, firstRequest := t1, lastRequest := t5 })]
        id RATE_LIMIT_CONFIGS.flagSubmission t7 =
      ({ allowed := true, remaining := 4, resetTime := t7 + 60000 },
       [("rate:" ++ id, { count := 1, firstRequest := t7, lastRequest := t7 })]) := by
  have hw : RATE_LIMIT_CONFIGS.flagSubmission.windowMs = 60000 := by
    norm_num [RATE_LIMIT_CONFIGS.flagSubmission]
  have hm : RATE_LIMIT_CONFIGS.flagSubmission.maxRequests = 5 := rfl
  have hsget : ∀ e : RateLimitEntry,
      storeGet [("rate:" ++ id, e)] ("rate:" ++ id) = some e := by
    intro e
    simp [storeGet]
  have hsset : ∀ e e2 : RateLimitEntry,
      storeSet [("rate:" ++ id, e)] ("rate:" ++ id) e2 = [("rate:" ++ id, e2)] := by
    intro e e2
    simp [storeSet]
  refine ⟨?_, ?_, ?_, ?_, ?_, ?_, ?_⟩
  · rw [checkRateLimit_absent [] id _ t1 rfl]
    simp [storeSet, hw, hm]
  · rw [checkRateLimit_live_increment _ id _ t2 _ (hsget _) (by rw [hw]; exact h2)
      (by norm_num [RATE_LIMIT_CONFIGS.flagSubmission])]
    simp [hsset, hw, hm]
  · rw [checkRateLimit_live_increment _ id _ t3 _ (hsget _) (by rw [hw]; exact h3)
      (by norm_num [RATE_LIMIT_CONFIGS.flagSubmission])]
    simp [hsset, hw, hm]
  · rw [checkRateLimit_live_increment _ id _ t4 _ (hsget _) (by rw [hw]; exact h4)
      (by norm_num [RATE_LIMIT_CONFIGS.flagSubmission])]
    simp [hsset, hw, hm]
  · rw [checkRateLimit_live_increment _ id _ t5 _ (hsget _) (by rw [hw]; exact h5)
      (by norm_num [RATE_LIMIT_CONFIGS.flagSubmission])]
    simp [hsset, hw, hm]
  · rw [checkRateLimit_full _ id _ t6 _ (hsget _) (by rw [hw]; exact h6)
      (by norm_num [RATE_LIMIT_CONFIGS.flagSubmission])]
    simp [hw, hm]
  · rw [checkRateLimit_expired _ id _ t7 _ (hsget _) (by rw [hw]; exact h7)]
    simp [hsset, hw, hm]

/-- Witness for C5 at id = "x" and times 0, 10, 20, 30, 40, 50, 60001:
the sixth call is rejected and the over-window call is allowed again. -/
theorem rate_window_five_then_reject_witness :
    (checkRateLimit [("rate:" ++ "x", { count := 5, firstRequest := 0, lastRequest := 40 })]
        "x" RATE_LIMIT_CONFIGS.flagSubmission 50).1.allowed = false ∧
    (checkRateLimit [("rate:" ++ "x", { count := 5, firstRequest := 0, lastRequest := 40 })]
        "x" RATE_LIMIT_CONFIGS.flagSubmission 60001).1.allowed = true := by
  have h := rate_window_five_then_reject "x" 0 10 20 30 40 50 60001
    (by decide) (by decide) (by decide) (by decide) (by decide) (by decide)
  constructor
  · rw [h.2.2.2.2.2.1]
  · rw [h.2.2.2.2.2.2]

/-- C8 counterexample: with a live full window starting at 0 and now =
30000, the code returns retryAfter = 30 (seconds, ceiling of the
millisecond remainder divided by 1000), which differs from
windowStart + windowMs - now = 30000 as the claim states it. -/
theorem retry_after_counterexample :
    (checkRateLimit [("rate:x", { count := 5, firstRequest := 0, lastRequest := 0 })]
        "x" RATE_LIMIT_CONFIGS.flagSubmission 30000).1.retryAfter = some 30 ∧
    (0 : Int) + RATE_LIMIT_CONFIGS.flagSubmission.windowMs - 30000 = 30000 ∧
    (30 : Int) ≠ 30000 := by
  refine ⟨?_, by decide, by decide⟩
  rw [checkRateLimit_full _ "x" _ 30000
    { count := 5, firstRequest := 0, lastRequest := 0 } (by decide) (by decide) (by decide)]
  decide

/-- C8 amended: whenever the check rejects (live window, count at the
maximum), the result carries retryAfter = ceil((windowStart + windowMs -
now) / 1000), the remaining window time in whole seconds, where
windowStart is the window's first-request timestamp. -/
theorem retry_after_seconds (store : List (String × RateLimitEntry)) (id : String)
    (cfg : RateLimitConfig) (now : Int) (e : RateLimitEntry)
    (hget : storeGet store ("rate:" ++ id) = some e)
    (hlive : now - e.firstRequest ≤ cfg.windowMs)
    (hfull : e.count ≥ cfg.maxRequests) :
    (checkRateLimit store id cfg now).1.allowed = false ∧
    (checkRateLimit store id cfg now).1.retryAfter =
      some (mathCeilDiv (e.firstRequest + cfg.windowMs - now) 1000) := by
  rw [checkRateLimit_full store id cfg now e hget hlive hfull]
  exact ⟨rfl, rfl⟩

/-- Witness for C8 (amended) at a concrete full window. -/
theorem retry_after_seconds_witness :
    (checkRateLimit [("rate:x", { count := 5, firstRequest := 0, lastRequest := 0 })]
        "x" RATE_LIMIT_CONFIGS.flagSubmission 59001).1.retryAfter = some 1 := by
  have h := retry_after_seconds
    [("rate:x", { count := 5, firstRequest := 0, lastRequest := 0 })] "x"
    RATE_LIMIT_CONFIGS.flagSubmission 59001
    { count := 5, firstRequest := 0, lastRequest := 0 }
    (by decide) (by decide) (by decide)
  rw [h.2]
  decide

/-- C10: a rejected check (live window at the maximum) returns with the
store exactly unchanged, allowed = false and resetTime determined solely
by the window's first-request timestamp; moreover, when maxRequests is at
least 1, every call preserves the invariant that no stored count exceeds
maxRequests. -/
theorem rate_limit_reject_frame (store : List (String × RateLimitEntry))
    (id : String) (cfg : RateLimitConfig) (now : Int) (e : RateLimitEntry)
    (hget : storeGet store ("rate:" ++ id) = some e)
    (hlive : now - e.firstRequest ≤ cfg.windowMs)
    (hfull : e.count ≥ cfg.maxRequests) :
    (checkRateLimit store id cfg now).2 = store ∧
    (checkRateLimit store id cfg now).1.allowed = false ∧
    (checkRateLimit store id cfg now).1.resetTime = e.firstRequest + cfg.windowMs ∧
    (1 ≤ cfg.maxRequests → ∀ store2 now2 id2, storeCountInv cfg store2 →
       storeCountInv cfg (checkRateLimit store2 id2 cfg now2).2) := by
  rw [checkRateLimit_full store id cfg now e hget hlive hfull]
  refine ⟨rfl, rfl, rfl, ?_⟩
  intro hmax store2 now2 id2 hinv k e2 hget2
  cases hg : storeGet store2 ("rate:" ++ id2) with
  | none =>
      rw [checkRateLimit_absent store2 id2 cfg now2 hg] at hget2
      rw [storeGet_storeSet] at hget2
      by_cases hk : ("rate:" ++ id2) = k
      · rw [if_pos hk] at hget2
        cases hget2
        exact hmax
      · rw [if_neg hk] at hget2
        exact hinv k e2 hget2
  | some e3 =>
      by_cases hexp : now2 - e3.firstRequest > cfg.windowMs
      · rw [checkRateLimit_expired store2 id2 cfg now2 e3 hg hexp] at hget2
        rw [storeGet_storeSet] at hget2
        by_cases hk : ("rate:" ++ id2) = k
        · rw [if_pos hk] at hget2
          cases hget2
          exact hmax
        · rw [if_neg hk] at hget2
          exact hinv k e2 hget2
      · by_cases hc : e3.count ≥ cfg.maxRequests
        · rw [checkRateLimit_full store2 id2 cfg now2 e3 hg (not_lt.mp hexp) hc] at hget2
          exact hinv k e2 hget2
        · rw [checkRateLimit_live_increment store2 id2 cfg now2 e3 hg
            (not_lt.mp hexp) (not_le.mp hc)] at hget2
          rw [storeGet_storeSet] at hget2
          by_cases hk : ("rate:" ++ id2) = k
          · rw [if_pos hk] at hget2
            cases hget2
            exact Nat.succ_le_of_lt (not_le.mp hc)
          · rw [if_neg hk] at hget2
            exact hinv k e2 hget2

/-- Witness for C10: a concrete rejected call leaves the store unchanged,
and a call on the empty store preserves the count invariant. -/
theorem rate_limit_reject_frame_witness :
    (checkRateLimit [("rate:x", { count := 5, firstRequest := 0, lastRequest := 0 })]
        "x" RATE_LIMIT_CONFIGS.flagSubmission 30000).2 =
      [("rate:x", { count := 5, firstRequest := 0, lastRequest := 0 })] ∧
    storeCountInv RATE_LIMIT_CONFIGS.flagSubmission
      (checkRateLimit [] "y" RATE_LIMIT_CONFIGS.flagSubmission 7).2 := by
  have h := rate_limit_reject_frame
    [("rate:x", { count := 5, firstRequest := 0, lastRequest := 0 })] "x"
    RATE_LIMIT_CONFIGS.flagSubmission 30000
    { count := 5, firstRequest := 0, lastRequest := 0 }
    (by decide) (by decide) (by decide)
  refine ⟨h.1, h.2.2.2 (by decide) [] 7 "y" ?_⟩
  intro k e hk
  simp [storeGet] at hk

/-! ## Claim theorems: score ledger -/

/-- C1: the award transaction is a no-op on score, solved set and solve
counter when the (re-read) solved set already contains the challenge id;
otherwise it appends the challenge id to the solved set, adds the points
to the score and increments the solve counter, all in the one atomic
state update; a fresh user document gets score = points and a singleton
solved set; and a repeated run for the same (identity, challenge) pair is
a no-op, so the score is incremented exactly once. -/
theorem submit_award_exactly_once (t : TokenInfo) (cid : String)
    (ch c0 : ChallengeRec) (db : DB) (u : UserRec) :
    (alGet db.users t.uid = some u → cid ∈ u.solvedChallenges →
       awardTransaction t cid ch db = db) ∧
    (alGet db.users t.uid = some u → cid ∉ u.solvedChallenges →
       alGet db.challenges cid = some c0 →
       alGet (awardTransaction t cid ch db).users t.uid =
         some { u with score := u.score + ch.points
                       solvedChallenges := u.solvedChallenges ++ [cid] } ∧
       alGet (awardTransaction t cid ch db).challenges cid =
         some { c0 with solveCount := c0.solveCount + 1 }) ∧
    (alGet db.users t.uid = none →
       alGet db.challenges cid = some c0 →
       alGet (awardTransaction t cid ch db).users t.uid =
         some { freshUser t with score := ch.points, solvedChallenges := [cid] } ∧
       alGet (awardTransaction t cid ch db).challenges cid =
         some { c0 with solveCount := c0.solveCount + 1 }) ∧
    awardTransaction t cid ch (awardTransaction t cid ch db) =
      awardTransaction t cid ch db := by
  refine ⟨?_, ?_, ?_, awardTransaction_idem t cid ch db⟩
  · intro hget hmem
    exact awardTransaction_noop t cid ch db u hget hmem
  · intro hget hmem hch
    refine ⟨awardTransaction_users_existing t cid ch db u hget hmem, ?_⟩
    refine awardTransaction_counter t cid ch db c0 hch ?_
    intro u2 h2
    rw [hget] at h2
    cases h2
    exact hmem
  · intro hget hch
    refine ⟨awardTransaction_users_absent t cid ch db hget, ?_⟩
    refine awardTransaction_counter t cid ch db c0 hch ?_
    intro u2 h2
    rw [hget] at h2
    cases h2

/-- Witness for C1: a re-award of the already solved c0 is a no-op on the
whole state; a first award of c1 lands score 500 + 250 with c1 appended;
and a repeated award is a no-op. -/
theorem submit_award_exactly_once_witness :
    awardTransaction exToken "c0" exChallenge0 exDB = exDB ∧
    alGet (awardTransaction exToken "c1" exChallenge exDB).users exToken.uid =
      some { exUser with score := exUser.score + exChallenge.points
                         solvedChallenges := exUser.solvedChallenges ++ ["c1"] } ∧
    alGet (awardTransaction exToken "c1" exChallenge exDB).challenges "c1" =
      some { exChallenge with solveCount := exChallenge.solveCount + 1 } ∧
    awardTransaction exToken "c1" exChallenge (awardTransaction exToken "c1" exChallenge exDB) =
      awardTransaction exToken "c1" exChallenge exDB := by
  refine ⟨?_, ?_, ?_, ?_⟩
  · exact (submit_award_exactly_once exToken "c0" exChallenge0 exChallenge0 exDB exUser).1
      (by decide) (by decide)
  · exact ((submit_award_exactly_once exToken "c1" exChallenge exChallenge exDB exUser).2.1
      (by decide) (by decide) (by decide)).1
  · exact ((submit_award_exactly_once exToken "c1" exChallenge exChallenge exDB exUser).2.1
      (by decide) (by decide) (by decide)).2
  · exact (submit_award_exactly_once exToken "c1" exChallenge exChallenge exDB exUser).2.2.2

/-- C6: the invariant "score = sum of the points of the solved
challenges" (with a duplicate-free solved set) is preserved by the award
transaction, covering both first-touch creation of the user document
(score 0, empty solved set, then the award) and the ordinary award path;
challenge point values are never changed by the transaction. -/
theorem score_sum_invariant (t : TokenInfo) (cid : String) (ch : ChallengeRec)
    (db : DB) (hinv : scoreInv db) (hch : alGet db.challenges cid = some ch) :
    scoreInv (awardTransaction t cid ch db) ∧
    (freshUser t).score =
      ((freshUser t).solvedChallenges.map (challengePoints db.challenges)).sum := by
  refine ⟨?_, by simp [freshUser]⟩
  have hcp : challengePoints db.challenges cid = ch.points := by
    unfold challengePoints
    rw [hch]
  cases hu : alGet db.users t.uid with
  | some u =>
      by_cases hmem : cid ∈ u.solvedChallenges
      · rw [awardTransaction_noop t cid ch db u hu hmem]
        exact hinv
      · have hns : ∀ u2, alGet db.users t.uid = some u2 → cid ∉ u2.solvedChallenges := by
          intro u2 h2
          rw [hu] at h2
          cases h2
          exact hmem
        have hchal := awardTransaction_challenges_shape t cid ch db hns
        have hpts : ∀ l : List String,
            (l.map (challengePoints (awardTransaction t cid ch db).challenges)).sum =
            (l.map (challengePoints db.challenges)).sum := by
          intro l
          rw [hchal]
          congr 1
          apply List.map_congr_left
          intro a _
          exact challengePoints_inc db.challenges cid a
        intro uid2 u2 hget2
        by_cases he : uid2 = t.uid
        · subst he
          rw [awardTransaction_users_existing t cid ch db u hu hmem] at hget2
          cases hget2
          obtain ⟨hsum, hnd⟩ := hinv t.uid u hu
          constructor
          · rw [hpts]
            simp only [List.map_append, List.sum_append, List.map_cons,
              List.map_nil, List.sum_cons, List.sum_nil]
            rw [hcp, hsum]
            ring
          · simp [List.nodup_append, hnd, hmem]
        · rw [awardTransaction_users_other t cid ch db uid2 he] at hget2
          obtain ⟨hsum, hnd⟩ := hinv uid2 u2 hget2
          exact ⟨by rw [hpts]; exact hsum, hnd⟩
  | none =>
      have hns : ∀ u2, alGet db.users t.uid = some u2 → cid ∉ u2.solvedChallenges := by
        intro u2 h2
        rw [hu] at h2
        cases h2
      have hchal := awardTransaction_challenges_shape t cid ch db hns
      have hpts : ∀ l : List String,
          (l.map (challengePoints (awardTransaction t cid ch db).challenges)).sum =
          (l.map (challengePoints db.challenges)).sum := by
        intro l
        rw [hchal]
        congr 1
        apply List.map_congr_left
        intro a _
        exact challengePoints_inc db.challenges cid a
      intro uid2 u2 hget2
      by_cases he : uid2 = t.uid
      · subst he
        rw [awardTransaction_users_absent t cid ch db hu] at hget2
        cases hget2
        constructor
        · rw [hpts]
          simp only [List.map_cons, List.map_nil, List.sum_cons, List.sum_nil]
          rw [hcp]
          ring
        · simp
      · rw [awardTransaction_users_other t cid ch db uid2 he] at hget2
        obtain ⟨hsum, hnd⟩ := hinv uid2 u2 hget2
        exact ⟨by rw [hpts]; exact hsum, hnd⟩

/-- Witness for C6: the invariant holds of the example database (score
500 = points of c0) and is preserved by awarding c1 on it. -/
theorem score_sum_invariant_witness :
    scoreInv (awardTransaction exToken "c1" exChallenge exDB) := by
  have hinv : scoreInv exDB := by
    intro uid u h
    simp only [exDB, alGet] at h
    split at h
    · cases h
      constructor
      · decide
      · decide
    · cases h
  exact (score_sum_invariant exToken "c1" exChallenge exDB hinv (by decide)).1

/-! ## Claim theorems: flag matcher -/

/-- C3: with the salt configured, validating a secret against the
fingerprint created from it returns true; and for two secrets that differ
after normalization, validation of one against the other's fingerprint
returns false, given that the digest does not collide on the two salted
normalized inputs (the collision-freedom idealization of SHA-256). -/
theorem flag_fingerprint_roundtrip (digest : String → String)
    (salt S S1 S2 hS hS2 : String) (hsalt : salt ≠ "")
    (h1 : hashFlag digest salt S = some hS)
    (h2 : hashFlag digest salt S2 = some hS2)
    (hne : normalizeFlag S1 ≠ normalizeFlag S2)
    (hcoll : hexDecodeJs (digest (salt ++ normalizeFlag S1)).data ≠
             hexDecodeJs (digest (salt ++ normalizeFlag S2)).data) :
    validateFlag digest salt S hS = some true ∧
    validateFlag digest salt S1 hS2 = some false := by
  have hS_eq : hS = digest (salt ++ normalizeFlag S) := by
    unfold hashFlag at h1
    rw [if_neg hsalt] at h1
    injection h1 with h1a
    exact h1a.symm
  have hS2_eq : hS2 = digest (salt ++ normalizeFlag S2) := by
    unfold hashFlag at h2
    rw [if_neg hsalt] at h2
    injection h2 with h2a
    exact h2a.symm
  constructor
  · unfold validateFlag hashFlag
    rw [if_neg hsalt]
    subst hS_eq
    simp
  · unfold validateFlag hashFlag
    rw [if_neg hsalt]
    subst hS2_eq
    by_cases hl : (hexDecodeJs (digest (salt ++ normalizeFlag S1)).data).length =
        (hexDecodeJs (digest (salt ++ normalizeFlag S2)).data).length
    · simp only [hl]
      simp [hcoll]
    · simp [hl]

/-- Witness for C3 with the demo digest, salt "s", S = "A " (normalizing
to "a"), S1 = "a", S2 = "b". -/
theorem flag_fingerprint_roundtrip_witness :
    validateFlag demoDigest "s" "A " "7361" = some true ∧
    validateFlag demoDigest "s" "a" "7362" = some false :=
  flag_fingerprint_roundtrip demoDigest "s" "A " "a" "b" "7361" "7362"
    (by decide) (by decide) (by decide) (by decide) (by decide)

/-- C9: the route hashes the sanitized flag, not the raw submission:
sanitizeInput rewrites the secret "a<b>c" to "abc", so submitting the
exact secret "a<b>c" to a challenge whose fingerprint was created from
"a<b>c" answers correct = false (given the two distinct salted inputs do
not collide under the digest). -/
theorem sanitized_flag_mismatch (digest : String → String) (salt : String)
    (hsalt : salt ≠ "")
    (hcoll : hexDecodeJs (digest (salt ++ "abc")).data ≠
             hexDecodeJs (digest (salt ++ "a<b>c")).data) :
    sanitizeInput "a<b>c" = "abc" ∧
    normalizeFlag "a<b>c" = "a<b>c" ∧
    (submitPOST digest salt c9Req (c9DB digest salt) [] 0).1 =
      .success false GENERIC_ERRORS.FLAG_INCORRECT none none none := by
  refine ⟨by decide, by decide, ?_⟩
  have hval : validateFlag digest salt (sanitizeInput "a<b>c")
      ((c9Challenge digest salt).flagHash) = some false := by
    have hsan : sanitizeInput "a<b>c" = "abc" := by decide
    rw [hsan]
    unfold validateFlag hashFlag
    rw [if_neg hsalt]
    have hnorm : normalizeFlag "abc" = "abc" := by decide
    rw [hnorm]
    show (if (hexDecodeJs (digest (salt ++ "abc")).data).length ≠
        (hexDecodeJs ((c9Challenge digest salt).flagHash).data).length then some false
      else some (hexDecodeJs (digest (salt ++ "abc")).data ==
        hexDecodeJs ((c9Challenge digest salt).flagHash).data)) = some false
    have hfh : (c9Challenge digest salt).flagHash = digest (salt ++ "a<b>c") := rfl
    rw [hfh]
    by_cases hl : (hexDecodeJs (digest (salt ++ "abc")).data).length =
        (hexDecodeJs (digest (salt ++ "a<b>c")).data).length
    · simp only [hl]
      simp [hcoll]
    · simp [hl]
  have hauth : authenticateRequest c9Req.token (c9DB digest salt).users =
      .ok exToken (some exUserEmpty) := rfl
  unfold submitPOST
  rw [hauth]
  dsimp only
  have hrl := checkRateLimit_absent [] ("flagSubmission:" ++
    (hashIpAddress digest salt c9Req.ip ++ ":" ++ exToken.uid))
    RATE_LIMIT_CONFIGS.flagSubmission 0 rfl
  rw [hrl]
  simp only [Bool.true_eq_false, if_false]
  unfold submitCore
  have hbody : c9Req.body = some ⟨some "c1", some "a<b>c"⟩ := rfl
  rw [hbody]
  dsimp only
  rw [if_neg (by decide : ¬("c1" : String) = "")]
  rw [if_neg (by decide : ¬("a<b>c" : String) = "")]
  rw [if_neg (by decide :
    ¬((sanitizeInput "a<b>c").length = 0 ∨ 256 < (sanitizeInput "a<b>c").length))]
  rw [if_neg (by decide : ¬("c1" ∈ solvedOf (some exUserEmpty)))]
  have hch : alGet (c9DB digest salt).challenges "c1" = some (c9Challenge digest salt) := by
    simp [c9DB, alGet]
  rw [hch]
  dsimp only
  rw [if_neg (by simp [c9Challenge] : ¬((c9Challenge digest salt).isActive = false))]
  rw [hval]
  simp

/-- Witness for C9 with the demo digest and salt "s". -/
theorem sanitized_flag_mismatch_witness :
    (submitPOST demoDigest "s" c9Req (c9DB demoDigest "s") [] 0).1 =
      .success false GENERIC_ERRORS.FLAG_INCORRECT none none none :=
  (sanitized_flag_mismatch demoDigest "s" (by decide) (by decide)).2.2

/-! ## Claim theorems: orchestrator control flow and rejection shapes -/

/-- C2 counterexample: a request whose flag-submission window is already
full and whose bearer credential is invalid is rejected as unauthenticated
(401), not as rate-limited (429), and the limiter store is not touched:
the code authenticates before it rate-limits. -/
theorem submit_rate_limit_order_counterexample :
    (checkRateLimit cexStoreFull cexKey RATE_LIMIT_CONFIGS.flagSubmission 1000).1.allowed = false ∧
    (submitPOST demoDigest "s" cexReqNoToken exDB cexStoreFull 1000).1 =
      .failure 401 GENERIC_ERRORS.UNAUTHORIZED ∧
    (submitPOST demoDigest "s" cexReqNoToken exDB cexStoreFull 1000).2.2 = cexStoreFull ∧
    Resp.failure 401 GENERIC_ERRORS.UNAUTHORIZED ≠
      Resp.failure 429 GENERIC_ERRORS.RATE_LIMITED := by decide

/-- C2 amended: identity verification runs before the rate-limit check:
a request without a valid credential is rejected as unauthenticated with
the limiter store and database unchanged (the rate limiter is never
consulted), and only a request that passes authentication can be rejected
as rate-limited. -/
theorem submit_auth_precedes_rate_limit (digest : String → String) (salt : String)
    (req : SubmitReq) (db : DB) (store : List (String × RateLimitEntry)) (now : Int) :
    (req.token = none →
       submitPOST digest salt req db store now =
         (.failure 401 GENERIC_ERRORS.UNAUTHORIZED, db, store)) ∧
    (∀ t, req.token = some t → t.email_verified = true →
       (∀ u, alGet db.users t.uid = some u → u.isBanned = false) →
       (checkRateLimit store ("flagSubmission:" ++
           (hashIpAddress digest salt req.ip ++ ":" ++ t.uid))
         RATE_LIMIT_CONFIGS.flagSubmission now).1.allowed = false →
       (submitPOST digest salt req db store now).1 =
         .failure 429 GENERIC_ERRORS.RATE_LIMITED) := by
  constructor
  · intro htok
    have hauth : authenticateRequest req.token db.users =
        .failure 401 GENERIC_ERRORS.UNAUTHORIZED := by
      rw [show req.token = none from htok]
      rfl
    unfold submitPOST
    rw [hauth]
  · intro t htok hver hban hrl
    have hb : (match alGet db.users t.uid with
        | some u => u.isBanned
        | none => false) = false := by
      cases hu : alGet db.users t.uid with
      | none => rfl
      | some u => exact hban u hu
    have hauth : authenticateRequest req.token db.users = .ok t (alGet db.users t.uid) := by
      unfold authenticateRequest
      rw [htok]
      dsimp only
      rw [hver, hb]
      simp
    unfold submitPOST
    rw [hauth]
    dsimp only
    rw [if_pos hrl]

/-- Witness for C2 (amended): the concrete no-credential request on a
full window gets 401 with untouched state; the same request with a valid
credential gets 429. -/
theorem submit_auth_precedes_rate_limit_witness :
    submitPOST demoDigest "s" cexReqNoToken exDB cexStoreFull 1000 =
      (.failure 401 GENERIC_ERRORS.UNAUTHORIZED, exDB, cexStoreFull) ∧
    (submitPOST demoDigest "s" c2ReqValid exDB cexStoreFull 1000).1 =
      .failure 429 GENERIC_ERRORS.RATE_LIMITED := by
  constructor
  · exact (submit_auth_precedes_rate_limit demoDigest "s" cexReqNoToken exDB
      cexStoreFull 1000).1 rfl
  · refine (submit_auth_precedes_rate_limit demoDigest "s" c2ReqValid exDB
      cexStoreFull 1000).2 exToken rfl rfl ?_ (by decide)
    intro u hu
    have hu2 : u = exUser := by
      simp [exDB, alGet] at hu
      exact hu.2.symm
    rw [hu2]
    rfl

/-- C4 counterexample: past authentication and rate limiting, a malformed
(empty-string) challenge id yields the validation-failed shape (400),
while an absent challenge id yields the not-found shape (404): the two
rejection shapes differ, contrary to the claim. -/
theorem submit_rejection_shape_counterexample :
    (submitPOST demoDigest "s" c4ReqMalformed exDB [] 0).1 =
      .failure 400 GENERIC_ERRORS.VALIDATION_FAILED ∧
    (submitPOST demoDigest "s" c4ReqAbsent exDB [] 0).1 =
      .failure 404 GENERIC_ERRORS.NOT_FOUND ∧
    Resp.failure 400 GENERIC_ERRORS.VALIDATION_FAILED ≠
      Resp.failure 404 GENERIC_ERRORS.NOT_FOUND := by decide

/-- C4 amended: past authentication, rate limiting, input validation and
the duplicate-solve check, an absent challenge id and an inactive
challenge produce the identical not-found rejection shape (the same error
string and status 404); a malformed (missing, non-string or empty)
challenge id instead produces the validation-failed shape (400). -/
theorem submit_not_found_shape (digest : String → String) (salt : String)
    (t : TokenInfo) (cid flag : String) (req : SubmitReq) (db : DB)
    (store : List (String × RateLimitEntry)) (now : Int)
    (htok : req.token = some t) (hver : t.email_verified = true)
    (hban : ∀ u, alGet db.users t.uid = some u → u.isBanned = false)
    (hrl : (checkRateLimit store ("flagSubmission:" ++
        (hashIpAddress digest salt req.ip ++ ":" ++ t.uid))
      RATE_LIMIT_CONFIGS.flagSubmission now).1.allowed = true)
    (hbody : req.body = some ⟨some cid, some flag⟩)
    (hcid : cid ≠ "") (hflag : flag ≠ "")
    (hsan : ¬((sanitizeInput flag).length = 0 ∨ 256 < (sanitizeInput flag).length))
    (hdup : cid ∉ solvedOf (alGet db.users t.uid)) :
    (alGet db.challenges cid = none →
       (submitPOST digest salt req db store now).1 =
         .failure 404 GENERIC_ERRORS.NOT_FOUND) ∧
    (∀ ch, alGet db.challenges cid = some ch → ch.isActive = false →
       (submitPOST digest salt req db store now).1 =
         .failure 404 GENERIC_ERRORS.NOT_FOUND) := by
  have hb : (match alGet db.users t.uid with
      | some u => u.isBanned
      | none => false) = false := by
    cases hu : alGet db.users t.uid with
    | none => rfl
    | some u => exact hban u hu
  have hauth : authenticateRequest req.token db.users = .ok t (alGet db.users t.uid) := by
    unfold authenticateRequest
    rw [htok]
    dsimp only
    rw [hver, hb]
    simp
  have hnrl : ¬((checkRateLimit store ("flagSubmission:" ++
      (hashIpAddress digest salt req.ip ++ ":" ++ t.uid))
    RATE_LIMIT_CONFIGS.flagSubmission now).1.allowed = false) := by
    rw [hrl]
    decide
  constructor
  · intro hch
    unfold submitPOST
    rw [hauth]
    dsimp only
    rw [if_neg hnrl]
    unfold submitCore
    rw [hbody]
    dsimp only
    rw [if_neg hcid, if_neg hflag, if_neg hsan, if_neg hdup, hch]
  · intro ch hch hact
    unfold submitPOST
    rw [hauth]
    dsimp only
    rw [if_neg hnrl]
    unfold submitCore
    rw [hbody]
    dsimp only
    rw [if_neg hcid, if_neg hflag, if_neg hsan, if_neg hdup, hch]
    dsimp only
    rw [if_pos hact]

/-- Witness for C4 (amended): the absent id "nope" and the inactive
challenge "c0" both answer the identical 404 not-found shape. -/
theorem submit_not_found_shape_witness :
    (submitPOST demoDigest "s" c4ReqAbsent exDB [] 0).1 =
      .failure 404 GENERIC_ERRORS.NOT_FOUND ∧
    (submitPOST demoDigest "s" c4ReqInactive exDB [] 0).1 =
      .failure 404 GENERIC_ERRORS.NOT_FOUND := by
  constructor
  · refine (submit_not_found_shape demoDigest "s" exToken "nope" "x" c4ReqAbsent exDB
      [] 0 rfl rfl ?_ (by decide) rfl (by decide) (by decide) (by decide) (by decide)).1
      (by decide)
    intro u hu
    have hu2 : u = exUser := by
      simp [exDB, alGet] at hu
      exact hu.2.symm
    rw [hu2]
    rfl
  · refine (submit_not_found_shape demoDigest "s" exToken2 "c0" "x" c4ReqInactive exDB
      [] 0 rfl rfl ?_ (by decide) rfl (by decide) (by decide) (by decide) (by decide)).2
      exChallenge0 (by decide) (by decide)
    intro u hu
    simp [exDB, alGet, exToken2] at hu

/-! ## Response-body string pools (no-leakage) -/

theorem authenticateRequest_error_mem (tok : Option TokenInfo)
    (users : List (String × UserRec)) (st : Nat) (e : String)
    (h : authenticateRequest tok users = .failure st e) : e ∈ postBodyConstants := by
  unfold authenticateRequest at h
  cases tok with
  | none =>
      cases h
      decide
  | some t =>
      dsimp only at h
      split at h
      · cases h
        decide
      · split at h
        · cases h
          decide
        · cases h

theorem submitCore_strings (digest : String → String) (salt : String)
    (t : TokenInfo) (userData : Option UserRec) (body : Option SubmitBody)
    (userAgent : Option String) (ipHash : String) (db : DB) (now : Int) :
    ∀ x ∈ (submitCore digest salt t userData body userAgent ipHash db now).1.bodyStrings,
      x ∈ postBodyConstants := by
  intro x hx
  unfold submitCore at hx
  repeat' split at hx
  all_goals try dsimp only at hx
  all_goals repeat' split at hx
  all_goals simp_all [Resp.bodyStrings, postBodyConstants]

theorem submitPOST_strings (digest : String → String) (salt : String)
    (req : SubmitReq) (db : DB) (store : List (String × RateLimitEntry)) (now : Int) :
    ∀ x ∈ (submitPOST digest salt req db store now).1.bodyStrings,
      x ∈ postBodyConstants := by
  intro x hx
  unfold submitPOST at hx
  cases hA : authenticateRequest req.token db.users with
  | failure st e =>
      rw [hA] at hx
      dsimp only at hx
      simp only [Resp.bodyStrings, List.mem_singleton] at hx
      rw [hx]
      exact authenticateRequest_error_mem req.token db.users st e hA
  | ok t ud =>
      rw [hA] at hx
      dsimp only at hx
      split at hx
      · simp only [Resp.bodyStrings, List.mem_singleton] at hx
        subst hx
        decide
      · exact submitCore_strings digest salt t ud req.body req.userAgent
          (hashIpAddress digest salt req.ip) db now x hx

theorem challengesGET_strings (digest : String → String) (salt : String)
    (req : ListReq) (db : DB) (store : List (String × RateLimitEntry)) (now : Int) :
    ∀ x ∈ (challengesGET digest salt req db store now).1.bodyStrings,
      x ∈ leakPool db := by
  intro x hx
  unfold challengesGET at hx
  dsimp only at hx
  split at hx
  · simp only [RespG.bodyStrings, List.mem_singleton] at hx
    subst hx
    exact List.mem_append_left _ (by decide)
  · cases hA : authenticateRequest req.token db.users with
    | failure st e =>
        rw [hA] at hx
        dsimp only at hx
        simp only [RespG.bodyStrings, List.mem_singleton] at hx
        rw [hx]
        exact List.mem_append_left _
          (authenticateRequest_error_mem req.token db.users st e hA)
    | ok t ud =>
        rw [hA] at hx
        dsimp only at hx
        simp only [RespG.bodyStrings, List.mem_flatMap, List.mem_map] at hx
        obtain ⟨pc, ⟨kc, hkc, rfl⟩, hxs⟩ := hx
        apply List.mem_append_right
        rw [List.mem_flatMap]
        refine ⟨kc, List.mem_of_mem_filter hkc, ?_⟩
        have : PublicChallenge.strings (toPublic kc.1 kc.2 (solvedOf ud)) =
            challengeDocStrings kc := rfl
        exact this ▸ hxs

/-- C7: every string in any submit response body is one of the fixed
generic messages, and every string in any listing response body is a
fixed message or a public field of some stored challenge; hence the salt
and a stored challenge's flagHash, being outside that pool, appear in no
success or error response body of either endpoint, on any input. -/
theorem no_fingerprint_salt_leakage (digest : String → String) (salt : String)
    (req : SubmitReq) (db : DB) (store : List (String × RateLimitEntry)) (now : Int)
    (reqG : ListReq) (storeG : List (String × RateLimitEntry)) (nowG : Int)
    (cid : String) (ch : ChallengeRec)
    (hch : alGet db.challenges cid = some ch)
    (hsalt : salt ∉ leakPool db) (hfh : ch.flagHash ∉ leakPool db) :
    (ch.flagHash ∉ (submitPOST digest salt req db store now).1.bodyStrings ∧
     salt ∉ (submitPOST digest salt req db store now).1.bodyStrings) ∧
    (ch.flagHash ∉ (challengesGET digest salt reqG db storeG nowG).1.bodyStrings ∧
     salt ∉ (challengesGET digest salt reqG db storeG nowG).1.bodyStrings) := by
  have hpost := submitPOST_strings digest salt req db store now
  have hget := challengesGET_strings digest salt reqG db storeG nowG
  have hsub : ∀ x ∈ postBodyConstants, x ∈ leakPool db :=
    fun x hx => List.mem_append_left _ hx
  exact ⟨⟨fun h => hfh (hsub _ (hpost _ h)), fun h => hsalt (hsub _ (hpost _ h))⟩,
         ⟨fun h => hfh (hget _ h), fun h => hsalt (hget _ h)⟩⟩

/-- Witness for C7 with the example database: neither the fingerprint of
c1 nor the salt occurs in the concrete submit and listing responses. -/
theorem no_fingerprint_salt_leakage_witness :
    exChallenge.flagHash ∉ (submitPOST demoDigest "s" c2ReqValid exDB [] 0).1.bodyStrings ∧
    "s" ∉ (challengesGET demoDigest "s" ⟨some exToken, "1.2.3.4"⟩ exDB [] 0).1.bodyStrings := by
  have h := no_fingerprint_salt_leakage demoDigest "s" c2ReqValid exDB [] 0
    ⟨some exToken, "1.2.3.4"⟩ [] 0 "c1" exChallenge (by decide) (by decide) (by decide)
  exact ⟨h.1.1, h.2.2⟩
